import Mathlib

/-!
Shallow embedding of the mugic Performance Comparison & Feedback Scoring
Engine (`src/feedback_generator.py`, `src/real_feedback_generator.py`,
`src/session_manager.py`), together with theorems checking the
natural-language specification against this embedding.

Python floats are modelled as exact rationals (`ℚ`); Python `int()`
truncation and `round()` (round-half-even) are modelled explicitly.
-/

namespace Mugic

/-- Python `int(x)` on a float: truncation toward zero. -/
def pyInt (x : ℚ) : ℤ := if 0 ≤ x then ⌊x⌋ else ⌈x⌉

/-- Python `abs(x)` (written as a conditional so that concrete instances
reduce by `simp`/`norm_num`). -/
def pyAbs (x : ℚ) : ℚ := if x < 0 then -x else x

/-- Python `round(x)`: round-half-to-even. -/
def pyRoundInt (x : ℚ) : ℤ :=
  if x - ⌊x⌋ < 1/2 then ⌊x⌋
  else if 1/2 < x - ⌊x⌋ then ⌊x⌋ + 1
  else if ⌊x⌋ % 2 = 0 then ⌊x⌋ else ⌊x⌋ + 1

/-- Python `round(x, d)`: round to `d` decimal digits, half to even. -/
def pyRoundTo (d : ℕ) (x : ℚ) : ℚ := (pyRoundInt (x * 10 ^ d) : ℚ) / 10 ^ d

/-- A note as consumed by the engine: the dict keys `pitch`, `start_time`,
`duration` (the scoring code reads `pitch` and `start_time`; `duration` is
carried but never read by it). -/
structure Note where
  pitch : String
  start_time : ℚ
  duration : ℚ
  deriving Repr, DecidableEq

/-- Stable insertion of a note into a list sorted by `start_time`
(an earlier-inserted note with an equal key stays in front). -/
def insertByStart (n : Note) : List Note → List Note
  | [] => [n]
  | m :: ms =>
      if n.start_time ≤ m.start_time then n :: m :: ms
      else m :: insertByStart n ms

/-- The stable Python `sorted(notes, key=lambda x: x.get(start_time, 0))`,
modelled as a stable insertion sort (stable sorts by a total key agree). -/
def sortByStart : List Note → List Note
  | [] => []
  | n :: ns => insertByStart n (sortByStart ns)

/-- The inner candidate scan of
`RealFeedbackGenerator._analyze_pitch_accuracy` (lines 186-196), with the
running best candidate `(index, note, min_time_diff)` as accumulator
(`None` models `min_time_diff = inf`, i.e. no candidate yet): a played
note whose `|start_time - t|` is strictly below `0.5` replaces the
incumbent only with a strictly smaller difference, so on ties the earliest
index wins. -/
def findClosestAux (t : ℚ) : ℕ → List Note → Option (ℕ × Note × ℚ) → Option (ℕ × Note × ℚ)
  | _, [], acc => acc
  | i, p :: ps, acc =>
      let d := pyAbs (p.start_time - t)
      let acc' :=
        match acc with
        | none => if d < 0.5 then some (i, p, d) else none
        | some (j, q, m) =>
            if d < 0.5 ∧ d < m then some (i, p, d) else some (j, q, m)
      findClosestAux t (i + 1) ps acc'

/-- The `closest_played` chosen for an expected note at time `t`: index
(identity) and value of the played note, if any lies within the window. -/
def findClosest (played : List Note) (t : ℚ) : Option (ℕ × Note) :=
  (findClosestAux t 0 played none).map (fun x => (x.1, x.2.1))

/-- One entry of the `errors` list built by `_analyze_pitch_accuracy`. -/
inductive PitchError where
  | wrong (position : ℕ) (expected played : String) (time : ℚ)
  | missing (position : ℕ) (expected : String) (time : ℚ)
  | extraNotes (count : ℕ)
  deriving Repr, DecidableEq

/-- The dict returned by `_analyze_pitch_accuracy`. -/
structure PitchFeedback where
  score : ℤ
  correct_notes : ℕ
  total_notes : ℕ
  accuracy : ℚ
  errors : List PitchError
  deriving Repr, DecidableEq

/-- The main loop of `_analyze_pitch_accuracy` (lines 182-215): for the
`i`-th sorted expected note, consult `findClosest` on the sorted played
notes; count a correct note on pitch equality, otherwise record a
wrong-pitch or missing error.  There is no claimed-set in the source: each
iteration scans all played notes again.  Returns
`(correct_count, errors)`. -/
def pitchLoop (pa : List Note) : ℕ → List Note → ℕ × List PitchError
  | _, [] => (0, [])
  | i, e :: es =>
      let rest := pitchLoop pa (i + 1) es
      match findClosest pa e.start_time with
      | some p =>
          if e.pitch = p.2.pitch then (rest.1 + 1, rest.2)
          else (rest.1, PitchError.wrong i e.pitch p.2.pitch e.start_time :: rest.2)
      | none => (rest.1, PitchError.missing i e.pitch e.start_time :: rest.2)

/-- `RealFeedbackGenerator._analyze_pitch_accuracy` (lines 159-232).
Early return when either sequence is empty; otherwise sort both sequences
by start time and run the match loop.  `score` is `int(accuracy)`
(truncation), `accuracy` is `round(accuracy, 2)`, errors are capped at
10, and an `extra_notes` entry is appended when played notes outnumber
expected notes. -/
def analyzePitchAccuracy (expected played : List Note) : PitchFeedback :=
  if expected.isEmpty ∨ played.isEmpty then
    { score := 0, correct_notes := 0, total_notes := expected.length,
      accuracy := 0, errors := [] }
  else
    let ea := sortByStart expected
    let pa := sortByStart played
    let res := pitchLoop pa 0 ea
    let errs :=
      if pa.length > ea.length then
        res.2 ++ [PitchError.extraNotes (pa.length - ea.length)]
      else res.2
    let accuracy := ((res.1 : ℚ) / ea.length) * 100
    { score := pyInt accuracy, correct_notes := res.1, total_notes := ea.length,
      accuracy := pyRoundTo 2 accuracy, errors := errs.take 10 }

/-- The per-expected-note choice made by the matcher loop of
`_analyze_pitch_accuracy`: for the `i`-th expected note (in sorted order),
the index of the played note claimed as closest, if any.  Derived from the
same `findClosest` scan each loop iteration performs (the source keeps
only `closest_played`; the index records which played note that is). -/
def pitchMatchesAux (pa : List Note) : ℕ → List Note → List (ℕ × Option ℕ)
  | _, [] => []
  | i, e :: es =>
      (i, (findClosest pa e.start_time).map (fun x => x.1)) :: pitchMatchesAux pa (i + 1) es

/-- See `pitchMatchesAux`: the claims made by the matcher loop, expected
index paired with the claimed played index (both in sorted order). -/
def pitchMatches (expected played : List Note) : List (ℕ × Option ℕ) :=
  pitchMatchesAux (sortByStart played) 0 (sortByStart expected)

/-! ## Tempo analysis -/

/-- The rating labels of `_analyze_tempo`. -/
inductive TempoRating where
  | excellent | good | fair | needs_improvement
  deriving Repr, DecidableEq

/-- The dict returned by `_analyze_tempo`. -/
structure TempoFeedback where
  score : ℤ
  expected_bpm : ℚ
  actual_bpm : ℚ
  difference_bpm : ℚ
  percentage_difference : ℚ
  rating : TempoRating
  deriving Repr, DecidableEq

/-- The single error kind the embedded pipeline can raise: the Python
`ZeroDivisionError` from `(difference / expected_tempo) * 100` in
`_analyze_tempo` when `expected_tempo` is zero.  The `try/except` in
`generate_feedback` logs and re-raises, so the error reaches the caller. -/
inductive EvalError where
  | zeroDivision
  deriving Repr, DecidableEq

/-- `RealFeedbackGenerator._analyze_tempo` (lines 274-299); identical in
`FeedbackGenerator._analyze_tempo` (lines 199-228).  The division by
`expected_tempo` is unguarded: `expected_tempo = 0` raises
`ZeroDivisionError`.  Bands are evaluated in order with strict `<`. -/
def analyzeTempo (expected_tempo played_tempo : ℚ) : Except EvalError TempoFeedback :=
  if expected_tempo = 0 then .error .zeroDivision
  else
    let difference := pyAbs (expected_tempo - played_tempo)
    let percentage_diff := difference / expected_tempo * 100
    let rs : ℤ × TempoRating :=
      if percentage_diff < 5 then (100, .excellent)
      else if percentage_diff < 10 then (85, .good)
      else if percentage_diff < 15 then (70, .fair)
      else (50, .needs_improvement)
    .ok { score := rs.1, expected_bpm := pyRoundTo 1 expected_tempo,
          actual_bpm := pyRoundTo 1 played_tempo,
          difference_bpm := pyRoundTo 1 difference,
          percentage_difference := pyRoundTo 2 percentage_diff,
          rating := rs.2 }

/-! ## Rhythm analysis (two near-duplicate implementations) -/

/-- The `rhythm_consistency` label. -/
inductive Consistency where
  | good | needs_work
  deriving Repr, DecidableEq

/-- One entry of the `issues` list of the rhythm analyzers. -/
inductive RhythmIssue where
  | tempo_inconsistent (expected actual difference : ℚ)
  | uneven_rhythm (variability : ℚ)
  deriving Repr, DecidableEq

/-- The dict returned by the rhythm analyzers. -/
structure RhythmFeedback where
  score : ℤ
  issues : List RhythmIssue
  tempo_difference : ℚ
  rhythm_consistency : Consistency
  deriving Repr, DecidableEq

/-- The tempo-difference penalty shared by both rhythm analyzers:
`-20` when the difference exceeds 10 BPM, else `-10` when it exceeds
5 BPM (mutually exclusive `if`/`elif` bands). -/
def tempoPenalty (tempo_diff : ℚ) : ℤ :=
  if tempo_diff > 10 then 20 else if tempo_diff > 5 then 10 else 0

/-- The score of `RealFeedbackGenerator._analyze_rhythm_accuracy` before
the `max(0, score)` floor: start at 100, tempo penalty, and `-15` when
`std_ioi > 0.15`. -/
def realRhythmRawScore (expected_tempo played_tempo std_ioi : ℚ) : ℤ :=
  100 - tempoPenalty (pyAbs (expected_tempo - played_tempo))
      - (if std_ioi > 0.15 then 15 else 0)

/-- `RealFeedbackGenerator._analyze_rhythm_accuracy` (lines 234-272).
The `expected_rhythms` parameter of the source is never read; the played
rhythm dict contributes only `std_ioi` (`.get(std_ioi, 0)`, modelled as
the value after the default). -/
def realAnalyzeRhythm (expected_tempo played_tempo std_ioi : ℚ) : RhythmFeedback :=
  let tempo_diff := pyAbs (expected_tempo - played_tempo)
  let issues :=
    (if tempo_diff > 10 then
      [RhythmIssue.tempo_inconsistent expected_tempo played_tempo (pyRoundTo 2 tempo_diff)]
     else []) ++
    (if std_ioi > 0.15 then [RhythmIssue.uneven_rhythm (pyRoundTo 3 std_ioi)] else [])
  { score := max 0 (realRhythmRawScore expected_tempo played_tempo std_ioi),
    issues := issues,
    tempo_difference := pyRoundTo 2 tempo_diff,
    rhythm_consistency := if std_ioi < 0.1 then .good else .needs_work }

/-- The pre-floor score of `FeedbackGenerator._analyze_rhythm_accuracy`
(lines 160-197): same structure but the uneven-rhythm penalty triggers at
`std_ioi > 0.1` instead of `> 0.15`. -/
def oldRhythmRawScore (expected_tempo played_tempo std_ioi : ℚ) : ℤ :=
  100 - tempoPenalty (pyAbs (expected_tempo - played_tempo))
      - (if std_ioi > 0.1 then 15 else 0)

/-- `FeedbackGenerator._analyze_rhythm_accuracy` (lines 160-197). -/
def oldAnalyzeRhythm (expected_tempo played_tempo std_ioi : ℚ) : RhythmFeedback :=
  let tempo_diff := pyAbs (expected_tempo - played_tempo)
  let issues :=
    (if tempo_diff > 10 then
      [RhythmIssue.tempo_inconsistent expected_tempo played_tempo (pyRoundTo 2 tempo_diff)]
     else []) ++
    (if std_ioi > 0.1 then [RhythmIssue.uneven_rhythm (pyRoundTo 3 std_ioi)] else [])
  { score := max 0 (oldRhythmRawScore expected_tempo played_tempo std_ioi),
    issues := issues,
    tempo_difference := pyRoundTo 2 tempo_diff,
    rhythm_consistency := if std_ioi < 0.1 then .good else .needs_work }

/-! ## Dynamics analysis -/

/-- One sample of the dynamics series: dict keys `db` and `level`. -/
structure DynSample where
  db : ℚ
  level : String
  deriving Repr, DecidableEq

/-- The `variety` label of `_analyze_dynamics`. -/
inductive Variety where
  | good | limited
  deriving Repr, DecidableEq

/-- Detail of the dynamics dict: the empty-series fallback
`score 50, range limited, control unknown` carries no
variety/range keys; the analyzed form carries `range_db`, `levels_used`
and `variety`. -/
inductive DynDetail where
  | emptyFallback
  | analyzed (range_db : ℚ) (levels_used : List String) (variety : Variety)
  deriving Repr, DecidableEq

/-- The dict returned by `_analyze_dynamics`. -/
structure DynamicsFeedback where
  score : ℤ
  detail : DynDetail
  deriving Repr, DecidableEq

/-- The `set(d[level] for d in dynamics)` of `_analyze_dynamics`, modelled
as the list of distinct level labels (`dedup` has the cardinality of the
set). -/
def dynLevelsUsed (dynamics : List DynSample) : List String :=
  (dynamics.map (fun s => s.level)).dedup

/-- `max(db_values) - min(db_values)` of `_analyze_dynamics` over a
non-empty series (0 for the empty series, which the source never reaches
on this path). -/
def dynRange : List DynSample → ℚ
  | [] => 0
  | d :: ds =>
      (ds.map (fun s => s.db)).foldl max d.db - (ds.map (fun s => s.db)).foldl min d.db

/-- `RealFeedbackGenerator._analyze_dynamics` (lines 301-321); identical
in `FeedbackGenerator._analyze_dynamics` (lines 230-260).  Base score 70,
`+15` when the db range exceeds 30, `+15` when at least 4 distinct levels
are used, capped at 100; `variety` is `good` when at least 3 distinct
levels. -/
def analyzeDynamics : List DynSample → DynamicsFeedback
  | [] => { score := 50, detail := .emptyFallback }
  | d :: ds =>
      let dynamic_range := dynRange (d :: ds)
      let levels := dynLevelsUsed (d :: ds)
      let score := 70 + (if dynamic_range > 30 then (15 : ℤ) else 0)
                      + (if levels.length ≥ 4 then (15 : ℤ) else 0)
      { score := min 100 score,
        detail := .analyzed (pyRoundTo 2 dynamic_range) levels
          (if levels.length ≥ 3 then .good else .limited) }

/-! ## Overall score -/

/-- `RealFeedbackGenerator._calculate_overall_score` (lines 323-344);
identical in `FeedbackGenerator._calculate_overall_score` (lines
262-290).  Weights 0.4/0.3/0.2/0.1; when the dynamics dict is absent the
three-term sum is divided by 0.9; the result goes through `int()`
(truncation), not `round()`. -/
def calculateOverallScore (pitch rhythm tempo : ℤ) (dynamics : Option ℤ) : ℤ :=
  let score : ℚ := (pitch : ℚ) * 0.4 + (rhythm : ℚ) * 0.3 + (tempo : ℚ) * 0.2
  match dynamics with
  | some d => pyInt (score + (d : ℚ) * 0.1)
  | none => pyInt (score / 0.9)

/-! ## Recommendations -/

/-- One recommendation line.  Template lines are modelled structurally
(each constructor stands for one fixed f-string of
`_generate_recommendations_template`, carrying the interpolated values);
`llmLine` is a line extracted from the text of the generative backend. -/
inductive RecLine where
  | llmLine (text : String)
  | pitchFocus (accuracy : ℚ)
  | rhythmMetronome
  | tempoTooSlow (actual_bpm expected_bpm : ℚ)
  | tempoTooFast (actual_bpm expected_bpm : ℚ)
  | dynamicsVariety
  | positive
  deriving Repr, DecidableEq

/-- The `variety` value observable through
`dynamics_feedback.get(variety)`: `none` for the empty-series fallback
dict (which has no `variety` key). -/
def dynVariety (df : DynamicsFeedback) : Option Variety :=
  match df.detail with
  | .emptyFallback => none
  | .analyzed _ _ v => some v

/-- `RealFeedbackGenerator._generate_recommendations_template` (lines
420-475): the deterministic template rules, in order pitch, rhythm,
tempo, dynamics; when no rule fires, exactly one positive-reinforcement
message. -/
def generateRecommendationsTemplate (p : PitchFeedback) (r : RhythmFeedback)
    (t : TempoFeedback) (d : Option DynamicsFeedback) : List RecLine :=
  let recs : List RecLine :=
    (if p.score < 70 then [.pitchFocus p.accuracy] else []) ++
    (if r.score < 70 ∧ r.rhythm_consistency = .needs_work then [.rhythmMetronome] else []) ++
    (if t.score < 70 then
      (if t.actual_bpm - t.expected_bpm < 0 then [.tempoTooSlow t.actual_bpm t.expected_bpm]
       else [.tempoTooFast t.actual_bpm t.expected_bpm])
     else []) ++
    (match d with
     | some df =>
         if df.score < 70 ∧ dynVariety df = some .limited then [.dynamicsVariety] else []
     | none => [])
  if recs = [] then [.positive] else recs

/-- The usable-line extraction of `_generate_recommendations_llm` (lines
377-386): strip each line of the generated text, keep non-empty lines
longer than 10 characters, and stop once 3 lines are collected. -/
def usableLines : List String → ℕ → List String
  | [], _ => []
  | s :: rest, n =>
      let t := s.trim
      if t ≠ "" ∧ t.length > 10 then
        if n + 1 ≥ 3 then [t] else t :: usableLines rest (n + 1)
      else usableLines rest n

/-- The recommendation lines extracted from the generative
backend output: `none` models an unavailable pipeline, an exception, or output
not longer than the prompt (in each of these cases no line is added). -/
def llmRecs (gen : Option (List String)) : List RecLine :=
  (match gen with
   | none => []
   | some ls => usableLines ls 0).map RecLine.llmLine

/-- `RealFeedbackGenerator._generate_recommendations_llm` (lines
346-397): consult the generative backend, fall back to the deterministic
templates when it yields fewer than 2 usable lines, and cap the returned
list at 5.  The `overall_score` argument of the source only feeds the
prompt of the backend, which is modelled by the `gen` input. -/
def generateRecommendationsLlm (gen : Option (List String)) (p : PitchFeedback)
    (r : RhythmFeedback) (t : TempoFeedback) (d : Option DynamicsFeedback) : List RecLine :=
  let recommendations := llmRecs gen
  let recommendations :=
    if recommendations.length < 2 then generateRecommendationsTemplate p r t d
    else recommendations
  recommendations.take 5

/-! ## Summary and the full pipeline -/

/-- The summary of `_generate_summary` (lines 477-510), modelled
structurally: the performance adjective chosen from the overall score and
the list of strengths (dimension scores ≥ 80, in pitch/rhythm/tempo
order). -/
structure SummaryInfo where
  performance : String
  strengths : List String
  deriving Repr, DecidableEq

/-- `RealFeedbackGenerator._generate_summary` (lines 477-510). -/
def generateSummary (overall_score : ℤ) (p : PitchFeedback) (r : RhythmFeedback)
    (t : TempoFeedback) : SummaryInfo :=
  { performance :=
      if overall_score ≥ 90 then "outstanding"
      else if overall_score ≥ 80 then "very good"
      else if overall_score ≥ 70 then "good"
      else if overall_score ≥ 60 then "fair"
      else "needs improvement",
    strengths :=
      (if p.score ≥ 80 then ["pitch accuracy"] else []) ++
      (if r.score ≥ 80 then ["rhythmic consistency"] else []) ++
      (if t.score ≥ 80 then ["tempo control"] else []) }

/-- The sheet-music analysis input of `generate_feedback`: `notes`, and
`tempo` after the `.get(tempo, 120)` default.  The `rhythms` entry is
passed to the rhythm analyzer but never read by it. -/
structure SheetAnalysis where
  notes : List Note
  tempo : ℚ
  deriving Repr, DecidableEq

/-- The audio analysis input of `generate_feedback`: `notes`, `tempo`
after the default, the `std_ioi` of the rhythm dict after the
`.get(std_ioi, 0)` default, and the `dynamics` series after the
`.get(dynamics, [])` default. -/
structure AudioAnalysis where
  notes : List Note
  tempo : ℚ
  std_ioi : ℚ
  dynamics : List DynSample
  deriving Repr, DecidableEq

/-- The feedback dict assembled by `generate_feedback`. -/
structure Feedback where
  overall_score : ℤ
  pitch : PitchFeedback
  rhythm : RhythmFeedback
  tempo : TempoFeedback
  dynamics : Option DynamicsFeedback
  recommendations : List RecLine
  summary : SummaryInfo
  deriving Repr, DecidableEq

/-- `RealFeedbackGenerator.generate_feedback` (lines 70-157).  There is
no input validation anywhere in the pipeline; the only failure is the
`ZeroDivisionError` propagated from `_analyze_tempo` (the `except` block
re-raises).  `gen` stands for the lines produced by the optional
generative backend. -/
def generate_feedback (sheet : SheetAnalysis) (audio : AudioAnalysis)
    (disable_dynamics : Bool) (gen : Option (List String)) : Except EvalError Feedback :=
  let pitch := analyzePitchAccuracy sheet.notes audio.notes
  let rhythm := realAnalyzeRhythm sheet.tempo audio.tempo audio.std_ioi
  match analyzeTempo sheet.tempo audio.tempo with
  | .error e => .error e
  | .ok tempo =>
      let dynamics := if disable_dynamics then none else some (analyzeDynamics audio.dynamics)
      let overall_score :=
        calculateOverallScore pitch.score rhythm.score tempo.score
          (dynamics.map (fun d => d.score))
      let recommendations := generateRecommendationsLlm gen pitch rhythm tempo dynamics
      let summary := generateSummary overall_score pitch rhythm tempo
      .ok { overall_score, pitch, rhythm, tempo, dynamics, recommendations, summary }

/-! ## Session comparison -/

/-- A line of the `improvements`/`needs_work` lists of
`SessionManager.compare_with_previous`, modelled structurally: each
constructor stands for one fixed f-string, carrying the printed point
value (for decreases the source prints `abs(change)`). -/
inductive CompLine where
  | pitchImproved (points : ℤ)
  | pitchDecreased (points : ℤ)
  | rhythmImproved (points : ℤ)
  | rhythmNeedsWork (points : ℤ)
  | tempoImproved (points : ℤ)
  | tempoNeedsWork (points : ℤ)
  | keepUp
  | allMaintained
  deriving Repr, DecidableEq

/-- The general message of `compare_with_previous`, by the sign of the
overall score change. -/
inductive CompMessage where
  | improved (points : ℤ)
  | decreased (points : ℤ)
  | same
  deriving Repr, DecidableEq

/-- The scores read by `compare_with_previous` from one stored session:
the stored `score` column (= `feedback[overall_score]`) and the
per-dimension scores of the stored feedback JSON. -/
structure SessionScores where
  overall : ℤ
  pitch : ℤ
  rhythm : ℤ
  tempo : ℤ
  deriving Repr, DecidableEq

/-- The comparison dict returned on the `has_previous = True` path. -/
structure Comparison where
  has_previous : Bool
  previous_score : ℤ
  current_score : ℤ
  score_change : ℤ
  message : CompMessage
  improvements : List CompLine
  needs_work : List CompLine
  total_attempts : ℕ
  deriving Repr, DecidableEq

/-- `SessionManager.compare_with_previous` (lines 143-248), the
comparison body once the current and the most recent previous session
have been found (`previous_count` is the number of other sessions of the
piece; the paths returning `has_previous = False` are not modelled).
Per dimension: improvement when the change exceeds 5, regression
(`needs_work`) when it is below -5, otherwise neither; empty lists are
replaced by one fixed default line. -/
def compareWithPrevious (current previous : SessionScores)
    (previous_count : ℕ) : Comparison :=
  let score_change := current.overall - previous.overall
  let pitch_change := current.pitch - previous.pitch
  let rhythm_change := current.rhythm - previous.rhythm
  let tempo_change := current.tempo - previous.tempo
  let improvements :=
    (if pitch_change > 5 then [CompLine.pitchImproved pitch_change] else []) ++
    (if rhythm_change > 5 then [CompLine.rhythmImproved rhythm_change] else []) ++
    (if tempo_change > 5 then [CompLine.tempoImproved tempo_change] else [])
  let needs_work :=
    (if pitch_change < -5 then [CompLine.pitchDecreased |pitch_change|] else []) ++
    (if rhythm_change < -5 then [CompLine.rhythmNeedsWork |rhythm_change|] else []) ++
    (if tempo_change < -5 then [CompLine.tempoNeedsWork |tempo_change|] else [])
  let message :=
    if score_change > 0 then CompMessage.improved score_change
    else if score_change < 0 then CompMessage.decreased |score_change|
    else CompMessage.same
  { has_previous := true,
    previous_score := previous.overall,
    current_score := current.overall,
    score_change := score_change,
    message := message,
    improvements := if improvements = [] then [.keepUp] else improvements,
    needs_work := if needs_work = [] then [.allMaintained] else needs_work,
    total_attempts := previous_count + 1 }

/-! ## Theorems -/

theorem pyAbs_eq_abs (x : ℚ) : pyAbs x = |x| := by
  unfold pyAbs
  rcases lt_or_le x 0 with h | h
  · rw [if_pos h, abs_of_neg h]
  · rw [if_neg (not_lt.mpr h), abs_of_nonneg h]

theorem tempoPenalty_bounds (d : ℚ) : 0 ≤ tempoPenalty d ∧ tempoPenalty d ≤ 20 := by
  unfold tempoPenalty
  split_ifs <;> norm_num

/-- Claim C1 (amended): `generate_feedback` performs no input validation:
there is no `ValidationError`, malformed notes (negative duration) are not
rejected, and the pipeline returns a complete `Feedback` for every input
whose expected tempo is non-zero — the unguarded tempo division is its
only failure. -/
theorem generate_feedback_no_validation_total (sheet : SheetAnalysis)
    (audio : AudioAnalysis) (dis : Bool) (gen : Option (List String))
    (h : sheet.tempo ≠ 0) :
    (generate_feedback sheet audio dis gen).isOk = true := by
  unfold generate_feedback analyzeTempo
  rw [if_neg h]
  rfl

/-- Claim C1 counterexample: an expected sequence containing a note of
negative duration is not rejected; the caller receives a complete
`Feedback` result, contradicting the claimed `ValidationError` before
alignment. -/
theorem malformed_note_reaches_alignment :
    (∃ n ∈ ([⟨"C4", 0, -1⟩] : List Note), n.duration < 0) ∧
    (generate_feedback ⟨[⟨"C4", 0, -1⟩], 120⟩ ⟨[⟨"C4", 1/50, 1/2⟩], 120, 0, []⟩
      false none).isOk = true := by
  refine ⟨⟨⟨"C4", 0, -1⟩, by simp, by norm_num⟩, ?_⟩
  unfold generate_feedback analyzeTempo
  rw [if_neg (by norm_num : ¬((⟨[⟨"C4", 0, -1⟩], 120⟩ : SheetAnalysis).tempo = 0))]
  rfl

theorem generate_feedback_no_validation_total_witness :
    ((⟨[], 120⟩ : SheetAnalysis).tempo ≠ 0) ∧
    (generate_feedback ⟨[], 120⟩ ⟨[], 120, 0, []⟩ true none).isOk = true :=
  ⟨by norm_num, generate_feedback_no_validation_total _ _ _ _ (by norm_num)⟩

/-- Claim C2: evaluation of the matcher at the failing input
expected = C4 at 0.0 and C4 at 0.1, performed = a single C4 at 0.05.
The loop keeps no claimed-set, so the one performed note (index 0) is
claimed as the closest candidate of both expected notes and is counted
correct twice — the claimed at-most-one-match invariant fails. -/
theorem played_note_claimed_twice :
    pitchMatches [⟨"C4", 0, 1⟩, ⟨"C4", 1/10, 1⟩] [⟨"C4", 1/20, 1⟩] =
      [(0, some 0), (1, some 0)] ∧
    (analyzePitchAccuracy [⟨"C4", 0, 1⟩, ⟨"C4", 1/10, 1⟩] [⟨"C4", 1/20, 1⟩]).correct_notes = 2 ∧
    ([⟨"C4", 1/20, 1⟩] : List Note).length = 1 := by
  refine ⟨?_, ?_, rfl⟩ <;>
    norm_num [pitchMatches, pitchMatchesAux, analyzePitchAccuracy, sortByStart,
      insertByStart, pitchLoop, findClosest, findClosestAux, pyAbs, pyInt]

/-- Claim C3 (amended): the pitch score is `int(accuracy)` — the floor of
`100 * correct / total` (the accuracy is never negative), not its
rounding. -/
theorem pitch_score_truncates_accuracy (expected played : List Note) :
    (analyzePitchAccuracy expected played).score =
      ⌊((analyzePitchAccuracy expected played).correct_notes : ℚ) * 100 /
        ((analyzePitchAccuracy expected played).total_notes : ℚ)⌋ := by
  unfold analyzePitchAccuracy
  split
  · norm_num
  · dsimp only
    rw [pyInt, if_pos (by positivity)]
    congr 1
    ring

/-- Claim C3 counterexample: in the spec scenario (3 expected notes, 2
matched-correct, 1 matched-wrong-pitch) the reported accuracy is 66.67
but the score is 66, whereas rounding 200/3 yields 67. -/
theorem pitch_score_scenario_66_not_67 :
    (analyzePitchAccuracy [⟨"C4", 0, 1/2⟩, ⟨"D4", 1/2, 1/2⟩, ⟨"E4", 1, 1/2⟩]
        [⟨"C4", 1/50, 2/5⟩, ⟨"D4", 51/100, 2/5⟩, ⟨"F4", 21/20, 2/5⟩]).score = 66 ∧
    (analyzePitchAccuracy [⟨"C4", 0, 1/2⟩, ⟨"D4", 1/2, 1/2⟩, ⟨"E4", 1, 1/2⟩]
        [⟨"C4", 1/50, 2/5⟩, ⟨"D4", 51/100, 2/5⟩, ⟨"F4", 21/20, 2/5⟩]).accuracy = 6667/100 ∧
    (analyzePitchAccuracy [⟨"C4", 0, 1/2⟩, ⟨"D4", 1/2, 1/2⟩, ⟨"E4", 1, 1/2⟩]
        [⟨"C4", 1/50, 2/5⟩, ⟨"D4", 51/100, 2/5⟩, ⟨"F4", 21/20, 2/5⟩]).correct_notes = 2 ∧
    (analyzePitchAccuracy [⟨"C4", 0, 1/2⟩, ⟨"D4", 1/2, 1/2⟩, ⟨"E4", 1, 1/2⟩]
        [⟨"C4", 1/50, 2/5⟩, ⟨"D4", 51/100, 2/5⟩, ⟨"F4", 21/20, 2/5⟩]).total_notes = 3 ∧
    pyRoundInt ((2 : ℚ) * 100 / 3) = 67 := by
  norm_num [analyzePitchAccuracy, sortByStart, insertByStart, pitchLoop, findClosest,
    findClosestAux, pyAbs, pyInt, pyRoundTo, pyRoundInt]
  · simp
    norm_num [Int.fract]

/-- Claim C4 (amended): the tempo analysis does not guard the zero
divisor: an expected tempo of 0 raises `ZeroDivisionError` (the whole
evaluation fails); for any non-zero expected tempo the analysis
succeeds. -/
theorem tempo_zero_divisor_unguarded (e p : ℚ) :
    (e = 0 → analyzeTempo e p = .error .zeroDivision) ∧
    (e ≠ 0 → (analyzeTempo e p).isOk = true) := by
  constructor
  · intro h
    unfold analyzeTempo
    rw [if_pos h]
  · intro h
    unfold analyzeTempo
    rw [if_neg h]
    rfl

/-- Claim C4 counterexample: with expected tempo 0 the tempo analysis
raises instead of returning the claimed needs-improvement result with
score 0. -/
theorem tempo_zero_raises : analyzeTempo 0 100 = .error .zeroDivision := by
  unfold analyzeTempo
  rw [if_pos rfl]

theorem tempo_zero_divisor_unguarded_witness :
    ((120 : ℚ) ≠ 0) ∧ (analyzeTempo 120 100).isOk = true :=
  ⟨by norm_num, (tempo_zero_divisor_unguarded 120 100).2 (by norm_num)⟩

/-- Claim C5 (amended): a dynamics series with exactly 3 distinct level
labels and a db range above 30 earns the range bonus but not the
four-level bonus: the score is min(100, 70 + 15) = 85 (not 100), and the
variety label is good. -/
theorem dynamics_three_levels_wide_range_score (l : List DynSample)
    (h3 : (dynLevelsUsed l).length = 3) (h30 : dynRange l > 30) :
    (analyzeDynamics l).score = 85 ∧
    (analyzeDynamics l).detail =
      .analyzed (pyRoundTo 2 (dynRange l)) (dynLevelsUsed l) .good := by
  cases l with
  | nil => simp [dynLevelsUsed] at h3
  | cons d ds =>
      unfold analyzeDynamics
      dsimp only
      rw [if_pos h30, if_neg (by omega), if_pos (by omega)]
      exact ⟨by norm_num, rfl⟩

/-- Claim C5 counterexample: the spec scenario (levels p, mf, ff and a
35 dB range) produces score 85, not the claimed min(100, 70+15+15) =
100. -/
theorem dynamics_scenario_score_85_not_100 :
    (dynLevelsUsed [⟨60, "p"⟩, ⟨80, "mf"⟩, ⟨95, "ff"⟩]).length = 3 ∧
    dynRange [⟨60, "p"⟩, ⟨80, "mf"⟩, ⟨95, "ff"⟩] = 35 ∧
    (analyzeDynamics [⟨60, "p"⟩, ⟨80, "mf"⟩, ⟨95, "ff"⟩]).score = 85 ∧
    (analyzeDynamics [⟨60, "p"⟩, ⟨80, "mf"⟩, ⟨95, "ff"⟩]).score ≠ 100 := by
  refine ⟨by simp [dynLevelsUsed], by norm_num [dynRange], ?_, ?_⟩ <;>
    norm_num [analyzeDynamics, dynRange, dynLevelsUsed, pyRoundTo, pyRoundInt,
      show (["p", "mf", "ff"] : List String).dedup = ["p", "mf", "ff"] from by simp]

theorem dynamics_three_levels_wide_range_score_witness :
    (dynLevelsUsed [⟨60, "p"⟩, ⟨80, "mf"⟩, ⟨95, "ff"⟩]).length = 3 ∧
    dynRange [⟨60, "p"⟩, ⟨80, "mf"⟩, ⟨95, "ff"⟩] > 30 ∧
    (analyzeDynamics [⟨60, "p"⟩, ⟨80, "mf"⟩, ⟨95, "ff"⟩]).score = 85 := by
  refine ⟨by simp [dynLevelsUsed], by norm_num [dynRange], ?_⟩
  exact (dynamics_three_levels_wide_range_score _ (by simp [dynLevelsUsed])
    (by norm_num [dynRange])).1

/-- Claim C6 (amended): the overall score applies `int()` truncation to
the weighted sum 0.4/0.3/0.2/0.1 (with the three-term sum divided by 0.9
when dynamics is disabled), not rounding; the equal-scores scenario
80/80/80 with dynamics disabled still yields 80. -/
theorem overall_score_truncated_weighted_sum (p r t d : ℤ) :
    calculateOverallScore p r t (some d) =
      pyInt ((p : ℚ) * 0.4 + (r : ℚ) * 0.3 + (t : ℚ) * 0.2 + (d : ℚ) * 0.1) ∧
    calculateOverallScore p r t none =
      pyInt (((p : ℚ) * 0.4 + (r : ℚ) * 0.3 + (t : ℚ) * 0.2) / 0.9) ∧
    calculateOverallScore 80 80 80 none = 80 := by
  refine ⟨rfl, rfl, ?_⟩
  norm_num [calculateOverallScore, pyInt]

/-- Claim C6 counterexample: at pitch 81, rhythm 81, tempo 80, dynamics
80 the exact weighted sum is 80.7; the code truncates to 80 while the
claimed rounding yields 81. -/
theorem overall_score_81_case_truncates_down :
    calculateOverallScore 81 81 80 (some 80) = 80 ∧
    pyRoundInt ((81 : ℚ) * 0.4 + (81 : ℚ) * 0.3 + (80 : ℚ) * 0.2 + (80 : ℚ) * 0.1) = 81 := by
  norm_num [calculateOverallScore, pyInt, pyRoundInt]

/-- Claim C7: the recommendation list is capped at 5 entries; when the
generative backend yields fewer than 2 usable lines the result is exactly
the deterministic template output; and when no template rule triggers the
template path emits exactly one positive-reinforcement message. -/
theorem recommendations_fallback_cap_positive (gen : Option (List String))
    (p : PitchFeedback) (r : RhythmFeedback) (t : TempoFeedback)
    (d : Option DynamicsFeedback) :
    (generateRecommendationsLlm gen p r t d).length ≤ 5 ∧
    ((llmRecs gen).length < 2 →
      generateRecommendationsLlm gen p r t d =
        (generateRecommendationsTemplate p r t d).take 5) ∧
    (70 ≤ p.score → ¬(r.score < 70 ∧ r.rhythm_consistency = .needs_work) → 70 ≤ t.score →
      (∀ df, d = some df → ¬(df.score < 70 ∧ dynVariety df = some .limited)) →
      generateRecommendationsTemplate p r t d = [.positive]) := by
  refine ⟨?_, ?_, ?_⟩
  · unfold generateRecommendationsLlm
    exact List.length_take_le _ _
  · intro h
    unfold generateRecommendationsLlm
    dsimp only
    rw [if_pos h]
  · intro h1 h2 h3 h4
    unfold generateRecommendationsTemplate
    rw [if_neg (not_lt.mpr h1), if_neg h2, if_neg (not_lt.mpr h3)]
    cases d with
    | none => simp
    | some df => simp [h4 df rfl]

theorem recommendations_fallback_cap_positive_witness :
    generateRecommendationsLlm none ⟨80, 3, 3, 100, []⟩ ⟨80, [], 0, .good⟩
      ⟨85, 120, 118, 2, 167/100, .good⟩ none = [RecLine.positive] := by
  have h := recommendations_fallback_cap_positive none ⟨80, 3, 3, 100, []⟩
    ⟨80, [], 0, .good⟩ ⟨85, 120, 118, 2, 167/100, .good⟩ none
  rw [h.2.1 (by norm_num [llmRecs, usableLines]),
    h.2.2 (by norm_num) (by simp) (by norm_num) (by rintro df ⟨⟩)]
  rfl

/-- Claim C8: the session comparison reports the overall change as
current minus previous; a dimension is listed among improvements exactly
when its delta exceeds 5 and among needs-work exactly when its delta is
below -5 (a delta of exactly 5 lands in neither list); empty lists are
replaced by one default line; a positive overall change yields the
improvement message; total attempts is previous count plus one. -/
theorem session_comparison_contract (current previous : SessionScores) (k : ℕ) :
    (compareWithPrevious current previous k).score_change =
      current.overall - previous.overall ∧
    ((compareWithPrevious current previous k).score_change > 0 →
      (compareWithPrevious current previous k).message =
        .improved ((compareWithPrevious current previous k).score_change)) ∧
    (CompLine.pitchImproved (current.pitch - previous.pitch) ∈
        (compareWithPrevious current previous k).improvements ↔
      current.pitch - previous.pitch > 5) ∧
    (CompLine.rhythmImproved (current.rhythm - previous.rhythm) ∈
        (compareWithPrevious current previous k).improvements ↔
      current.rhythm - previous.rhythm > 5) ∧
    (CompLine.tempoImproved (current.tempo - previous.tempo) ∈
        (compareWithPrevious current previous k).improvements ↔
      current.tempo - previous.tempo > 5) ∧
    (CompLine.pitchDecreased |current.pitch - previous.pitch| ∈
        (compareWithPrevious current previous k).needs_work ↔
      current.pitch - previous.pitch < -5) ∧
    (CompLine.rhythmNeedsWork |current.rhythm - previous.rhythm| ∈
        (compareWithPrevious current previous k).needs_work ↔
      current.rhythm - previous.rhythm < -5) ∧
    (CompLine.tempoNeedsWork |current.tempo - previous.tempo| ∈
        (compareWithPrevious current previous k).needs_work ↔
      current.tempo - previous.tempo < -5) ∧
    (current.pitch - previous.pitch ≤ 5 ∧ current.rhythm - previous.rhythm ≤ 5 ∧
        current.tempo - previous.tempo ≤ 5 →
      (compareWithPrevious current previous k).improvements = [.keepUp]) ∧
    (-5 ≤ current.pitch - previous.pitch ∧ -5 ≤ current.rhythm - previous.rhythm ∧
        -5 ≤ current.tempo - previous.tempo →
      (compareWithPrevious current previous k).needs_work = [.allMaintained]) ∧
    (compareWithPrevious current previous k).total_attempts = k + 1 := by
  unfold compareWithPrevious
  dsimp only
  refine ⟨rfl, ?_, ?_, ?_, ?_, ?_, ?_, ?_, ?_, ?_, rfl⟩
  · intro h
    rw [if_pos h]
  · by_cases hp : current.pitch - previous.pitch > 5
    · simp [hp]
    · simp only [hp]
      split_ifs <;> simp_all
  · by_cases hp : current.rhythm - previous.rhythm > 5
    · simp [hp]
    · simp only [hp]
      split_ifs <;> simp_all
  · by_cases hp : current.tempo - previous.tempo > 5
    · simp [hp]
    · simp only [hp]
      split_ifs <;> simp_all
  · by_cases hp : current.pitch - previous.pitch < -5
    · simp [hp]
    · simp only [hp]
      split_ifs <;> simp_all
  · by_cases hp : current.rhythm - previous.rhythm < -5
    · simp [hp]
    · simp only [hp]
      split_ifs <;> simp_all
  · by_cases hp : current.tempo - previous.tempo < -5
    · simp [hp]
    · simp only [hp]
      split_ifs <;> simp_all
  · rintro ⟨h1, h2, h3⟩
    have ha : ¬(current.pitch - previous.pitch > 5) := by omega
    have hb : ¬(current.rhythm - previous.rhythm > 5) := by omega
    have hc : ¬(current.tempo - previous.tempo > 5) := by omega
    simp [ha, hb, hc]
  · rintro ⟨h1, h2, h3⟩
    have ha : ¬(current.pitch - previous.pitch < -5) := by omega
    have hb : ¬(current.rhythm - previous.rhythm < -5) := by omega
    have hc : ¬(current.tempo - previous.tempo < -5) := by omega
    simp [ha, hb, hc]

theorem session_comparison_contract_witness :
    (compareWithPrevious ⟨72, 80, 80, 80⟩ ⟨60, 70, 70, 70⟩ 1).score_change = 12 ∧
    (compareWithPrevious ⟨72, 80, 80, 80⟩ ⟨60, 70, 70, 70⟩ 1).message =
      CompMessage.improved 12 := by
  have h := session_comparison_contract ⟨72, 80, 80, 80⟩ ⟨60, 70, 70, 70⟩ 1
  have h1 := h.1
  have hm := h.2.1 (by rw [h1]; decide)
  exact ⟨by rw [h1]; decide, by rw [hm, h1]; decide⟩

/-- Claim C9 (amended): the two rhythm analyzers always agree on the
rhythm-consistency label, and agree on the score exactly outside the
interval where the uneven-rhythm thresholds differ: for std_ioi at most
0.1 or above 0.15 the scores coincide, while for std_ioi in (0.1, 0.15]
the older implementation scores 15 points lower. -/
theorem rhythm_scorers_partial_agreement (et pt std : ℚ) :
    (oldAnalyzeRhythm et pt std).rhythm_consistency =
      (realAnalyzeRhythm et pt std).rhythm_consistency ∧
    (std ≤ 1/10 ∨ 3/20 < std →
      (oldAnalyzeRhythm et pt std).score = (realAnalyzeRhythm et pt std).score) ∧
    (1/10 < std ∧ std ≤ 3/20 →
      (oldAnalyzeRhythm et pt std).score = (realAnalyzeRhythm et pt std).score - 15) := by
  have hb := tempoPenalty_bounds (pyAbs (et - pt))
  refine ⟨rfl, ?_, ?_⟩
  · intro h
    show max 0 (oldRhythmRawScore et pt std) = max 0 (realRhythmRawScore et pt std)
    unfold oldRhythmRawScore realRhythmRawScore
    rcases h with h | h
    · rw [if_neg (by norm_num; linarith), if_neg (by norm_num; linarith)]
    · rw [if_pos (by norm_num; linarith), if_pos (by norm_num; linarith)]
  · rintro ⟨h1, h2⟩
    show max 0 (oldRhythmRawScore et pt std) = max 0 (realRhythmRawScore et pt std) - 15
    unfold oldRhythmRawScore realRhythmRawScore
    rw [if_pos (by norm_num; linarith), if_neg (by norm_num; linarith)]
    omega

/-- Claim C9 counterexample: at equal tempos and std_ioi = 0.12 the older
implementation scores 85 while the newer one scores 100 — the two rhythm
scorers are not equivalent. -/
theorem rhythm_scorers_differ_in_gap :
    (oldAnalyzeRhythm 120 120 (3/25)).score = 85 ∧
    (realAnalyzeRhythm 120 120 (3/25)).score = 100 := by
  norm_num [oldAnalyzeRhythm, realAnalyzeRhythm, oldRhythmRawScore, realRhythmRawScore,
    tempoPenalty, pyAbs]

theorem rhythm_scorers_partial_agreement_witness :
    ((1 : ℚ)/20 ≤ 1/10 ∨ (3 : ℚ)/20 < 1/20) ∧
    (oldAnalyzeRhythm 120 100 (1/20)).score = (realAnalyzeRhythm 120 100 (1/20)).score :=
  ⟨Or.inl (by norm_num),
    (rhythm_scorers_partial_agreement 120 100 (1/20)).2.1 (Or.inl (by norm_num))⟩

/-- Claim C10: the rhythm score of RealFeedbackGenerator always lies in
[65, 100]: the two tempo-band penalties are mutually exclusive, so the
worst case is 100 - 20 - 15 = 65 and the max(0, score) floor never
changes the value. -/
theorem real_rhythm_score_bounds (expected_tempo played_tempo std_ioi : ℚ) :
    (realAnalyzeRhythm expected_tempo played_tempo std_ioi).score =
      realRhythmRawScore expected_tempo played_tempo std_ioi ∧
    65 ≤ realRhythmRawScore expected_tempo played_tempo std_ioi ∧
    realRhythmRawScore expected_tempo played_tempo std_ioi ≤ 100 := by
  have hb := tempoPenalty_bounds (pyAbs (expected_tempo - played_tempo))
  have hraw : 65 ≤ realRhythmRawScore expected_tempo played_tempo std_ioi ∧
      realRhythmRawScore expected_tempo played_tempo std_ioi ≤ 100 := by
    unfold realRhythmRawScore
    split_ifs <;> omega
  refine ⟨?_, hraw⟩
  show max 0 (realRhythmRawScore expected_tempo played_tempo std_ioi) = _
  omega

end Mugic
